import Mathlib

/-!
Verification development for the Nest cloud SDK (nest-cloud-nodejs).

The embedding models the two core subsystems of the repository:

* the streaming transport and protocol codec of
  `src/nest/network/NestNetworkManager.js` together with its utility
  functions (`splitStringByNewlines`, `extractStreamUpdateEventType`,
  `extractAndParseStreamUpdateEventBody`, `parseStringIntoJsObject`), and
* the cache reconciliation engine `NestRepresentationManager`
  (`_balanceDeviceCacheAgainstUpstream`,
  `_balanceStructureCacheAgainstUpstream`,
  `handleNetworkManagerStreamUpdate`, `getDeviceById`, `getDeviceByName`,
  `addHydratedListener`).

JavaScript objects are modelled as ordered association lists (JS string
keys keep insertion order), JSON values as the inductive `Json`, and
`JSON.parse` as an executable recursive-descent parser over the character
list of the string.  Mutable instance state is passed explicitly; emitted
events are returned as values.  `cloneDeep` is the identity on pure
values and is noted where the source calls it.
-/

/-- Whitespace characters removed by the JavaScript trim used in the
source (`String.prototype.trim`); the payloads in this API use only
space, tab, newline and carriage return. -/
def isTrimWhitespace (c : Char) : Bool :=
  c = ' ' || c = '\t' || c = '\n' || c = '\r'

/-- JavaScript `s.trim()` on the characters of a string. -/
def trimChars (cs : List Char) : List Char :=
  ((cs.dropWhile isTrimWhitespace).reverse.dropWhile isTrimWhitespace).reverse

/-- JavaScript `s.trim()`. -/
def jsTrim (s : String) : String :=
  String.mk (trimChars s.toList)

/-- Does `pat` occur at the head of `cs`? -/
def isPrefixList : List Char → List Char → Bool
  | [], _ => true
  | _ :: _, [] => false
  | p :: ps, c :: cs => p = c && isPrefixList ps cs

/-- Does `pat` occur anywhere inside `cs`?  Models a regular-expression
test for a fixed literal pattern. -/
def containsSubList (pat : List Char) : List Char → Bool
  | [] => isPrefixList pat []
  | c :: cs => isPrefixList pat (c :: cs) || containsSubList pat cs

/-- Fuel-driven splitting of a character list on a non-empty separator,
mirroring JavaScript `String.prototype.split` with a string separator.
The fuel is an upper bound on the number of characters consumed; with
fuel at least the length of the input the fallback branch is never
taken. -/
def splitOnList (sep : List Char) : Nat → List Char → List Char → List (List Char)
  | _, acc, [] => [acc.reverse]
  | 0, acc, cs => [acc.reverse ++ cs]
  | fuel + 1, acc, c :: cs =>
    if isPrefixList sep (c :: cs) then
      acc.reverse :: splitOnList sep fuel [] ((c :: cs).drop sep.length)
    else
      splitOnList sep fuel (c :: acc) cs

/-- JavaScript `s.split(sep)` for a non-empty string separator. -/
def jsSplit (s sep : String) : List String :=
  (splitOnList sep.toList (s.toList.length + 1) [] s.toList).map String.mk

/-- JavaScript `Array.prototype.join("")` over a list of strings. -/
def strJoin (l : List String) : String :=
  l.foldl (fun a b => a ++ b) ""

/-- Ordered association-list membership, modelling `key in obj` /
lodash `has` on a plain JavaScript object. -/
def alistHas {α : Type} : List (String × α) → String → Bool
  | [], _ => false
  | (k, _) :: rest, key => k = key || alistHas rest key

/-- Ordered association-list lookup, modelling JavaScript property
access `obj[key]`. -/
def alistGet {α : Type} : List (String × α) → String → Option α
  | [], _ => none
  | (k, v) :: rest, key => if k = key then some v else alistGet rest key

/-- Ordered association-list assignment, modelling JavaScript
`obj[key] = v`: an existing key keeps its position, a new key is
appended at the end (JS insertion order). -/
def alistSet {α : Type} : List (String × α) → String → α → List (String × α)
  | [], key, v => [(key, v)]
  | (k, w) :: rest, key, v =>
    if k = key then (key, v) :: rest else (k, w) :: alistSet rest key v

/-- JSON values as produced by `JSON.parse`.  Numbers are kept exactly
as mantissa times a power of ten (`num m e` is `m * 10 ^ e`), object
entries keep their textual order. -/
inductive Json where
  | null : Json
  | bool (b : Bool) : Json
  | num (mantissa : Int) (exp10 : Int) : Json
  | str (s : String) : Json
  | arr (elements : List Json) : Json
  | obj (entries : List (String × Json)) : Json
deriving Repr

mutual

/-- Structural equality of JSON values; also the model of lodash
`isEqual` (deep value equality) as used by lodash `find` with an
object shorthand. -/
def jsonEq : Json → Json → Bool
  | .null, .null => true
  | .bool a, .bool b => a = b
  | .num m e, .num n f => m = n && e = f
  | .str a, .str b => a = b
  | .arr xs, .arr ys => jsonListEq xs ys
  | .obj xs, .obj ys => jsonEntriesEq xs ys
  | _, _ => false

/-- Elementwise `jsonEq` on lists of JSON values. -/
def jsonListEq : List Json → List Json → Bool
  | [], [] => true
  | x :: xs, y :: ys => jsonEq x y && jsonListEq xs ys
  | _, _ => false

/-- Elementwise `jsonEq` on object entry lists (keys and values). -/
def jsonEntriesEq : List (String × Json) → List (String × Json) → Bool
  | [], [] => true
  | (k, v) :: xs, (l, w) :: ys => k = l && jsonEq v w && jsonEntriesEq xs ys
  | _, _ => false

end

/-- Digits taken greedily from the front of a character list. -/
def takeDigits : List Char → List Char × List Char
  | [] => ([], [])
  | c :: cs =>
    if c.isDigit then
      let p := takeDigits cs
      (c :: p.1, p.2)
    else ([], c :: cs)

/-- Numeric value of a digit run. -/
def digitsToNat (ds : List Char) : Nat :=
  ds.foldl (fun n c => n * 10 + (c.toNat - 48)) 0

/-- Value of a hexadecimal digit, if any. -/
def hexVal (c : Char) : Option Nat :=
  if c.isDigit then some (c.toNat - 48)
  else if 'a' ≤ c && c ≤ 'f' then some (c.toNat - 87)
  else if 'A' ≤ c && c ≤ 'F' then some (c.toNat - 55)
  else none

/-- Parse a JSON number (RFC 8259 grammar: optional minus, integer part
without leading zeros, optional fraction, optional exponent) from the
front of the input, as `JSON.parse` accepts it. -/
def parseNumber (cs : List Char) : Option (Json × List Char) :=
  let (neg, cs1) := match cs with
    | '-' :: rest => (true, rest)
    | rest => (false, rest)
  match cs1 with
  | [] => none
  | c :: rest =>
    if ¬ c.isDigit then none
    else
      let intPart : Option (List Char × List Char) :=
        if c = '0' then
          match rest with
          | d :: _ => if d.isDigit then none else some (['0'], rest)
          | [] => some (['0'], [])
        else some (takeDigits (c :: rest))
      match intPart with
      | none => none
      | some (ids, rest1) =>
        let fracPart : Option (List Char × List Char) :=
          match rest1 with
          | '.' :: r =>
            let p := takeDigits r
            if p.1.isEmpty then none else some (p.1, p.2)
          | r => some ([], r)
        match fracPart with
        | none => none
        | some (fds, rest2) =>
          let expPart : Option (Int × List Char) :=
            match rest2 with
            | 'e' :: r | 'E' :: r =>
              let (esign, r1) := match r with
                | '-' :: rr => (true, rr)
                | '+' :: rr => (false, rr)
                | rr => (false, rr)
              let p := takeDigits r1
              if p.1.isEmpty then none
              else some ((if esign then -(digitsToNat p.1 : Int) else (digitsToNat p.1 : Int)), p.2)
            | r => some (0, r)
          match expPart with
          | none => none
          | some (e, rest3) =>
            let mantissa : Int := digitsToNat (ids ++ fds)
            some (.num (if neg then -mantissa else mantissa) (e - fds.length), rest3)

/-- Parse the body of a JSON string literal after the opening quote, up
to and including the closing quote, handling the JSON escapes. -/
def parseStringBody : List Char → Option (List Char × List Char)
  | [] => none
  | '"' :: rest => some ([], rest)
  | '\\' :: '"' :: rest => (parseStringBody rest).map fun p => ('"' :: p.1, p.2)
  | '\\' :: '\\' :: rest => (parseStringBody rest).map fun p => ('\\' :: p.1, p.2)
  | '\\' :: '/' :: rest => (parseStringBody rest).map fun p => ('/' :: p.1, p.2)
  | '\\' :: 'n' :: rest => (parseStringBody rest).map fun p => ('\n' :: p.1, p.2)
  | '\\' :: 't' :: rest => (parseStringBody rest).map fun p => ('\t' :: p.1, p.2)
  | '\\' :: 'r' :: rest => (parseStringBody rest).map fun p => ('\r' :: p.1, p.2)
  | '\\' :: 'b' :: rest => (parseStringBody rest).map fun p => ('\x08' :: p.1, p.2)
  | '\\' :: 'f' :: rest => (parseStringBody rest).map fun p => ('\x0c' :: p.1, p.2)
  | '\\' :: 'u' :: a :: b :: c :: d :: rest =>
    match hexVal a, hexVal b, hexVal c, hexVal d with
    | some ha, some hb, some hc, some hd =>
      (parseStringBody rest).map fun p =>
        (Char.ofNat (ha * 4096 + hb * 256 + hc * 16 + hd) :: p.1, p.2)
    | _, _, _, _ => none
  | '\\' :: _ => none
  | c :: rest => (parseStringBody rest).map fun p => (c :: p.1, p.2)

mutual

/-- Fuel-driven recursive-descent parse of one JSON value from the
front of the input (whitespace-prefixed), returning the value and the
unconsumed rest.  The fuel only bounds recursion depth; with the fuel
supplied by `parseStringIntoJsObject` it never runs out. -/
def parseValue : Nat → List Char → Option (Json × List Char)
  | 0, _ => none
  | fuel + 1, cs =>
    match cs.dropWhile isTrimWhitespace with
    | 'n' :: 'u' :: 'l' :: 'l' :: rest => some (.null, rest)
    | 't' :: 'r' :: 'u' :: 'e' :: rest => some (.bool true, rest)
    | 'f' :: 'a' :: 'l' :: 's' :: 'e' :: rest => some (.bool false, rest)
    | '"' :: rest => (parseStringBody rest).map fun p => (.str (String.mk p.1), p.2)
    | '[' :: rest =>
      match rest.dropWhile isTrimWhitespace with
      | ']' :: rest2 => some (.arr [], rest2)
      | rest2 => (parseElems fuel rest2).map fun p => (.arr p.1, p.2)
    | '\x7b' :: rest =>
      match rest.dropWhile isTrimWhitespace with
      | '\x7d' :: rest2 => some (.obj [], rest2)
      | rest2 => (parseMembers fuel rest2).map fun p => (.obj p.1, p.2)
    | c :: rest =>
      if c = '-' || c.isDigit then parseNumber (c :: rest) else none
    | [] => none

/-- Fuel-driven parse of the elements of a non-empty JSON array,
after the opening bracket, including the closing bracket. -/
def parseElems : Nat → List Char → Option (List Json × List Char)
  | 0, _ => none
  | fuel + 1, cs =>
    match parseValue fuel cs with
    | none => none
    | some (v, rest) =>
      match rest.dropWhile isTrimWhitespace with
      | ',' :: rest2 => (parseElems fuel rest2).map fun p => (v :: p.1, p.2)
      | ']' :: rest2 => some ([v], rest2)
      | _ => none

/-- Fuel-driven parse of the members of a non-empty JSON object,
after the opening brace, including the closing brace. -/
def parseMembers : Nat → List Char → Option (List (String × Json) × List Char)
  | 0, _ => none
  | fuel + 1, cs =>
    match cs.dropWhile isTrimWhitespace with
    | '"' :: rest =>
      match parseStringBody rest with
      | none => none
      | some (key, rest2) =>
        match rest2.dropWhile isTrimWhitespace with
        | ':' :: rest3 =>
          match parseValue fuel rest3 with
          | none => none
          | some (v, rest4) =>
            match rest4.dropWhile isTrimWhitespace with
            | ',' :: rest5 =>
              (parseMembers fuel rest5).map fun p => ((String.mk key, v) :: p.1, p.2)
            | '\x7d' :: rest5 => some ([(String.mk key, v)], rest5)
            | _ => none
        | _ => none
    | _ => none

end

/-- JavaScript `JSON.parse(body)` itself: the parsed value, or `none`
when the call throws.  A parse succeeds exactly when the whole string
(up to trailing whitespace) is one valid JSON value. -/
def jsonParse (body : String) : Option Json :=
  let cs := body.toList
  match parseValue (2 * cs.length + 2) cs with
  | some (v, rest) => if (rest.dropWhile isTrimWhitespace).isEmpty then some v else none
  | none => none

/-- The source utility `parseStringIntoJsObject`
(`NestNetworkManagerUtils`): attempts `JSON.parse(body)` and returns
the JS value `false` on failure.  `JSON.parse("false")` returns the
SAME JS value `false`, and every caller tests the result with
`=== false`, so a body that is the JSON literal false is
indistinguishable from a parse failure; the sentinel-or-value return
is therefore modelled as `Option Json` with `some (.bool false)`
collapsed into `none`. -/
def parseStringIntoJsObject (body : String) : Option Json :=
  match jsonParse body with
  | some (.bool false) => none
  | r => r

/-- The regular-expression test `checkForChunkedMessage.test(body)` of
`_attemptToParseUpdate`: does the raw chunk contain the literal event
marker (the word event followed by a colon and a space)? -/
def containsEventMarker (body : String) : Bool :=
  containsSubList "event: ".toList body.toList

/-- The source utility `splitStringByNewlines`: JavaScript
`body.split("\n")`. -/
def splitStringByNewlines (body : String) : List String :=
  jsSplit body "\n"

/-- The source utility `extractStreamUpdateEventType`: JavaScript
`splitBody[0].split(":")[1].trim()`.  Accessing a missing index is
`undefined` in JavaScript and makes the subsequent `trim` throw; that
malformed-header case is modelled as `none`. -/
def extractStreamUpdateEventType (splitBody : List String) : Option String :=
  match splitBody.get? 0 with
  | none => none
  | some line =>
    match (jsSplit line ":").get? 1 with
    | none => none
    | some s => some (jsTrim s)

/-- The source utility `extractAndParseStreamUpdateEventBody`:
JavaScript `splitBody[1].split("data:")[1].trim()` paired with the
attempted JSON parse of that raw string; missing indices (which would
throw in the source) are modelled as `none`. -/
def extractAndParseStreamUpdateEventBody (splitBody : List String) :
    Option (String × Option Json) :=
  match splitBody.get? 1 with
  | none => none
  | some line =>
    match (jsSplit line "data:").get? 1 with
    | none => none
    | some s =>
      let raw := jsTrim s
      some (raw, parseStringIntoJsObject raw)

/-- `_determineIfChunkedMessagesHaveCompleted`
(`NestNetworkManager`): joins the buffered chunks with the empty
separator, attempts `JSON.parse` in a try/catch and returns `FALSE`
while the series is still incomplete.  Its caller tests the result
with `=== false`, so a completed body equal to the JSON literal false
is treated as still incomplete exactly like a parse failure — the
same sentinel collision as in `parseStringIntoJsObject`, hence the
same collapsed model. -/
def _determineIfChunkedMessagesHaveCompleted (chunked : List String) : Option Json :=
  parseStringIntoJsObject (strJoin chunked)

/-- The `eventContainer` object built by `_attemptToParseUpdate`:
an event-type string and an optional parsed body. -/
structure EventContainer where
  event : String
  body : Option Json
deriving Repr

/-- Result of one `_attemptToParseUpdate` call.  The source mutates
`chunkedPutMessagesAwaitingCompletion` and returns either `false`
(no emission this round) or an event container; both carry the buffer
state after the call.  `crash` models an uncaught JavaScript exception
thrown inside the call, with the buffer as it was at the throw. -/
inductive AttemptResult where
  | buffering (newBuffer : List String)
  | emit (container : EventContainer) (newBuffer : List String)
  | crash (buffer : List String) (message : String)
deriving Repr

/-- `_attemptToParseUpdate` (`NestNetworkManager`), over the buffer of
chunked put messages awaiting completion.  Faithful points: a chunk
without the event marker is appended to the buffer and the joined
buffer is re-parsed; a put header whose data fails to parse starts a
new chunked series, but when the buffer is already non-empty the
source first calls `this._warnOfPotentialDataLossInOverwritingQueue()`
— a method that is defined nowhere in the repository, so the call
throws `TypeError` before the buffer is touched (modelled by `crash`);
a malformed header (no colon line or no data line, `undefined` index
access in the source) is also a throw. -/
def _attemptToParseUpdate (chunked : List String) (body : String) : AttemptResult :=
  if containsEventMarker body = false then
    let buf := chunked ++ [body]
    match _determineIfChunkedMessagesHaveCompleted buf with
    | none => .buffering buf
    | some parsed => .emit ⟨"put", some parsed⟩ []
  else
    match extractStreamUpdateEventType (splitStringByNewlines body) with
    | none => .crash chunked "TypeError: undefined has no method trim"
    | some ev =>
      if ev = "put" then
        match extractAndParseStreamUpdateEventBody (splitStringByNewlines body) with
        | none => .crash chunked "TypeError: undefined has no method trim"
        | some (raw, parsedOpt) =>
          match parsedOpt with
          | none =>
            if 0 < chunked.length then
              .crash chunked
                "TypeError: this._warnOfPotentialDataLossInOverwritingQueue is not a function"
            else .buffering [raw]
          | some parsed => .emit ⟨"put", some parsed⟩ chunked
      else .emit ⟨ev, none⟩ chunked

/-- Result of one `_determineStreamUpdateType` call: the buffer state
afterwards and the event containers emitted (as
`serviceStreamDataUpdate`) during the call, or a crash. -/
inductive StreamStepResult where
  | ok (newBuffer : List String) (emitted : List EventContainer)
  | crash (buffer : List String) (message : String)
deriving Repr

/-- `_determineStreamUpdateType` (`NestNetworkManager`), the inbound
chunk handler.  A `false` parse result means the chunk was buffered and
nothing is emitted.  The body-processing map holds only the
auth-revoked type; its handler returns `undefined` in the source and
the subsequent `eventContainer.event` access throws, modelled as
`crash` (no claim exercises this).  The emission map holds only the
put type, so only put containers are emitted to subscribers. -/
def _determineStreamUpdateType (chunked : List String) (body : String) : StreamStepResult :=
  match _attemptToParseUpdate chunked body with
  | .buffering buf => .ok buf []
  | .crash buf msg => .crash buf msg
  | .emit container buf =>
    if container.event = "auth_revoked" then
      .crash buf "TypeError: cannot read event of undefined"
    else if container.event = "put" then .ok buf [container]
    else .ok buf []

/-- Feed a sequence of raw stream chunks, in order, through
`_determineStreamUpdateType`, threading the chunk buffer; a crash stops
the run (an uncaught exception in the data listener). -/
def processFragments (chunked : List String) : List String → List StreamStepResult
  | [] => []
  | f :: fs =>
    match _determineStreamUpdateType chunked f with
    | .ok buf emitted => .ok buf emitted :: processFragments buf fs
    | .crash buf msg => [.crash buf msg]

/-- The events emitted during one stream step. -/
def emittedOf : StreamStepResult → List EventContainer
  | .ok _ emitted => emitted
  | .crash _ _ => []

/-- Per-fragment emission lists of a chunk sequence fed from a given
buffer state. -/
def traceEmissions (chunked : List String) (fragments : List String) : List (List EventContainer) :=
  (processFragments chunked fragments).map emittedOf

/-- The mutable fields of `NestNetworkManager` that the modelled
request paths read or write: the OAuth access token and the cached
redirect target. -/
structure NMState where
  accessToken : Option String
  cachedRedirectUrl : Option String
deriving Repr, DecidableEq

/-- `removeToken` (`NestNetworkManager`): sets `accessToken` to null
and returns `this`; the returned state is the instance, modelling the
fluent `return this`.  It touches no other field. -/
def removeToken (s : NMState) : NMState :=
  { s with accessToken := none }

/-- `_cacheRedirectUrl` (`NestNetworkManager`): keeps scheme plus host
of the redirect location, via `redirectUrl.split("/")[2]` (JavaScript
`Array.join` renders a missing index as the empty string). -/
def _cacheRedirectUrl (s : NMState) (redirectUrl : String) : NMState :=
  { s with cachedRedirectUrl := some ("https://" ++ (jsSplit redirectUrl "/").getD 2 "") }

/-- An HTTP response as passed to the request callback by the `request`
library: status code, optional `Location` header, raw body. -/
structure HttpResponse where
  statusCode : Nat
  locationHeader : Option String
  body : String
deriving Repr, DecidableEq

/-- Outcome of the `_putRequest` response callback: the promise is
resolved or rejected, or the bound `repeatRequest` continuation is
invoked (redirect retry), or the callback throws. -/
inductive PutOutcome where
  | resolved (body : String)
  | rejected (errorTag : String)
  | rejectedDetail (detail : Json)
  | repeatedRequest
  | crash (message : String)
deriving Repr

/-- The status codes with entries in `reservedErrorCodes`. -/
def reservedErrorCodes : List Nat := [307, 400, 404, 500, 401, 403, 503, 429]

/-- Dispatch through `reservedErrorCodes` (`NestNetworkManager`):
307 caches the redirect host and invokes `repeatRequest`; 401 clears
the token via `removeToken` and rejects with the auth error tag; 400
rejects with the JSON-decoded response body, or a parse-failure
marker object when the body is not JSON; the remaining codes reject
with their `NETWORK_ERROR_EVENTS` tag.  A 307 without a `Location`
header would throw in `_cacheRedirectUrl` (split of `undefined`). -/
def handleReservedCode (s : NMState) (resp : HttpResponse) : NMState × PutOutcome :=
  if resp.statusCode = 307 then
    match resp.locationHeader with
    | some loc => (_cacheRedirectUrl s loc, .repeatedRequest)
    | none => (s, .crash "TypeError: cannot read split of undefined")
  else if resp.statusCode = 400 then
    match jsonParse resp.body with
    | some parsed => (s, .rejectedDetail parsed)
    | none => (s, .rejectedDetail (.obj [("unableToParseAPIError", .bool true), ("rawError", .str resp.body)]))
  else if resp.statusCode = 404 then (s, .rejected "PATH_NOT_FOUND")
  else if resp.statusCode = 500 then (s, .rejected "API_INTERNAL_ERROR")
  else if resp.statusCode = 401 then (removeToken s, .rejected "AUTH_ERROR")
  else if resp.statusCode = 403 then (s, .rejected "FORBIDDEN")
  else if resp.statusCode = 503 then (s, .rejected "SERVICE_UNAVAILABLE")
  else (s, .rejected "UNDER_RATE_LIMITS")

/-- The response callback of `_putRequest` (`NestNetworkManager`).
On a transport-level failure the `request` library passes a truthy
`error` and an `undefined` response, so the very first expression
`response.statusCode` throws `TypeError`.  Had the error branch been
reached with a cached redirect present, it would still throw: it calls
`this._wipeCachedUrl()`, but the class only defines
`_wipeCachedRedirectUrl`, and it then references `deviceData`,
`keyToUpdate` and `valueToUpdateWith`, which are not in scope in
`_putRequest`.  With no cached redirect the error branch rejects with
the transport error.  A response with a reserved status code goes
through `handleReservedCode`; otherwise a response with no error
resolves with the body. -/
def _putRequestCallback (s : NMState) (error : Bool) (response : Option HttpResponse)
    (body : String) : NMState × PutOutcome :=
  match response with
  | none => (s, .crash "TypeError: cannot read statusCode of undefined")
  | some resp =>
    if resp.statusCode ∈ reservedErrorCodes then
      handleReservedCode s resp
    else if error then
      match s.cachedRedirectUrl with
      | some _ => (s, .crash "TypeError: this._wipeCachedUrl is not a function")
      | none => (s, .rejected "TransportFailure")
    else (s, .resolved body)

/-- The entries of a JSON object value; lodash `keys` / `forEach` see
an empty collection on non-objects. -/
def Json.objEntries : Json → List (String × Json)
  | .obj kvs => kvs
  | _ => []

/-- lodash `isEmpty`: true on null, booleans and numbers, and on
empty strings, arrays and objects. -/
def Json.isEmptyVal : Json → Bool
  | .obj kvs => kvs.isEmpty
  | .arr xs => xs.isEmpty
  | .str s => s.isEmpty
  | _ => true

/-- lodash `has(updateObject, ["body", "data", field])` combined with
the property access `updateObject.body.data[field]`: the value at the
path when every step exists, `none` otherwise (also when
`updateObject` is not an object, covering the `isObject` guard of the
source). -/
def getBodyDataField (updateObject : Json) (field : String) : Option Json :=
  match updateObject with
  | .obj kvs =>
    match alistGet kvs "body" with
    | some (.obj bodyKvs) =>
      match alistGet bodyKvs "data" with
      | some (.obj dataKvs) => alistGet dataKvs field
      | _ => none
    | _ => none
  | _ => none

/-- Fuel-driven lodash `merge(\x7b\x7d, dst, src)` on JSON values:
object entries are merged recursively per key (source wins on
conflicting non-object leaves, destination entries absent from the
source are preserved, new source keys are appended in source order);
any non-object source value overwrites.  lodash also merges arrays
index-wise, which this API never exercises (device and structure
records are objects of scalars); arrays here are overwritten. -/
def Json.mergeFuel : Nat → Json → Json → Json
  | 0, _, b => b
  | fuel + 1, .obj a, .obj b =>
    .obj ((a.map fun e =>
        match alistGet b e.1 with
        | some w => (e.1, Json.mergeFuel fuel e.2 w)
        | none => e)
      ++ b.filter fun e => ¬ alistHas a e.1)
  | _ + 1, _, b => b

mutual

/-- Size of a JSON value, used as merge fuel. -/
def Json.sizeVal : Json → Nat
  | .null => 1
  | .bool _ => 1
  | .num _ _ => 1
  | .str _ => 1
  | .arr xs => 1 + jsonListSize xs
  | .obj kvs => 1 + jsonEntriesSize kvs

/-- Total size of a list of JSON values. -/
def jsonListSize : List Json → Nat
  | [] => 0
  | x :: xs => Json.sizeVal x + jsonListSize xs

/-- Total size of a list of JSON object entries. -/
def jsonEntriesSize : List (String × Json) → Nat
  | [] => 0
  | (_, v) :: rest => Json.sizeVal v + jsonEntriesSize rest

end

/-- lodash `merge(\x7b\x7d, dst, src)` with fuel large enough never to
run out on its inputs. -/
def Json.merge (a b : Json) : Json :=
  Json.mergeFuel (Json.sizeVal a + Json.sizeVal b) a b

/-- One device-type bucket of the device cache: device id to device
record (the record is the JSON object stored for the device). -/
abbrev DeviceBucket := List (String × Json)

/-- `localDeviceCache` (`NestRepresentationManager`): device type to
bucket. -/
abbrev DeviceCache := List (String × DeviceBucket)

/-- `localStructureCache` (`NestRepresentationManager`): structure id
to structure record. -/
abbrev StructureCache := List (String × Json)

/-- The `_deviceType` stamp written onto a newly inserted device
record (`newLocalCache[deviceTypeKey][k]._deviceType = deviceTypeKey`).
A non-object record would make that assignment throw in strict mode;
no payload in this API carries one, and it is left unchanged here. -/
def stampDeviceType (record : Json) (deviceTypeKey : String) : Json :=
  match record with
  | .obj kvs => .obj (alistSet kvs "_deviceType" (.str deviceTypeKey))
  | other => other

/-- The body of the `forEach(upstreamDevices, ...)` loop of
`_balanceDeviceCacheAgainstUpstream`, producing the new local bucket
for one upstream device-type entry: create the local bucket if missing
(`\x7b\x7d` init), drop local ids absent upstream (`omit` of the key
`difference`), `merge` upstream fields onto every surviving record,
then append full copies of the newly appeared ids stamped with their
device type. -/
def balanceBucket (acc : DeviceCache) (entry : String × Json) : DeviceBucket :=
  let deviceTypeKey := entry.1
  let deviceCategoryMap := entry.2.objEntries
  let bucket := (alistGet acc deviceTypeKey).getD []
  let kept := bucket.filter fun e => alistHas deviceCategoryMap e.1
  let merged := kept.map fun e =>
    match alistGet deviceCategoryMap e.1 with
    | some upstreamRecord => (e.1, Json.merge e.2 upstreamRecord)
    | none => e
  let added := (deviceCategoryMap.filter fun e => ¬ alistHas kept e.1).map
    fun e => (e.1, stampDeviceType e.2 deviceTypeKey)
  merged ++ added

/-- `_balanceDeviceCacheAgainstUpstream`
(`NestRepresentationManager`): defer when the payload lacks the
`body.data.devices` path; reset the whole cache when the upstream
container is lodash-empty; otherwise drop local buckets whose type key
is absent upstream (`omit` of the key `difference`), then rebuild each
upstream bucket with `balanceBucket` and assign it back
(`newLocalCache[deviceTypeKey] = ...`). -/
def _balanceDeviceCacheAgainstUpstream (cache : DeviceCache) (updateObject : Json) :
    DeviceCache :=
  match getBodyDataField updateObject "devices" with
  | none => cache
  | some devs =>
    if devs.isEmptyVal then []
    else
      let upstreamDevices := devs.objEntries
      let topBalanced := cache.filter fun e => alistHas upstreamDevices e.1
      upstreamDevices.foldl
        (fun acc entry => alistSet acc entry.1 (balanceBucket acc entry))
        topBalanced

/-- `_balanceStructureCacheAgainstUpstream`
(`NestRepresentationManager`): defer when the payload lacks the
`body.data.structures` path; reset on a lodash-empty container;
otherwise `omit` local ids absent upstream and `merge` the upstream
records over what remains. -/
def _balanceStructureCacheAgainstUpstream (cache : StructureCache) (updateObject : Json) :
    StructureCache :=
  match getBodyDataField updateObject "structures" with
  | none => cache
  | some strs =>
    if strs.isEmptyVal then []
    else
      let upstreamStructures := strs.objEntries
      let kept := cache.filter fun e => alistHas upstreamStructures e.1
      (Json.merge (.obj kept) (.obj upstreamStructures)).objEntries

/-- The mutable fields of `NestRepresentationManager`. -/
structure RepState where
  localDeviceCache : DeviceCache
  localStructureCache : StructureCache
  hydrated : Bool
deriving Repr

/-- The state of a freshly constructed `NestRepresentationManager`. -/
def RepState.initial : RepState :=
  { localDeviceCache := [], localStructureCache := [], hydrated := false }

/-- A signal emitted by the representation manager, carrying the
snapshot object `devices`/`structures` built by `_emitHydratedEvent`
or `_emitUpdateEvent` (the source passes `cloneDeep` copies; on pure
values the deep copy is the value itself). -/
inductive RepSignal where
  | hydratedSig (devices : DeviceCache) (structures : StructureCache)
  | updateSig (devices : DeviceCache) (structures : StructureCache)
deriving Repr

/-- `handleNetworkManagerStreamUpdate` (`NestRepresentationManager`),
the reconcile entry point: balance the device cache, then the
structure cache, then emit exactly one signal — `hydrated` (setting
the flag) if this instance was not yet hydrated, `update` otherwise. -/
def handleNetworkManagerStreamUpdate (s : RepState) (updateObject : Json) :
    RepState × List RepSignal :=
  let deviceCache := _balanceDeviceCacheAgainstUpstream s.localDeviceCache updateObject
  let structureCache := _balanceStructureCacheAgainstUpstream s.localStructureCache updateObject
  if s.hydrated = false then
    ({ localDeviceCache := deviceCache, localStructureCache := structureCache, hydrated := true },
      [.hydratedSig deviceCache structureCache])
  else
    ({ localDeviceCache := deviceCache, localStructureCache := structureCache, hydrated := true },
      [.updateSig deviceCache structureCache])

/-- Feed a sequence of put-event containers, in order, through
`handleNetworkManagerStreamUpdate`, collecting the per-call emission
lists. -/
def runUpdates (s : RepState) : List Json → RepState × List (List RepSignal)
  | [] => (s, [])
  | u :: us =>
    let step := handleNetworkManagerStreamUpdate s u
    let rest := runUpdates step.1 us
    (rest.1, step.2 :: rest.2)

/-- Is a signal the hydrated signal? -/
def isHydratedSig : RepSignal → Bool
  | .hydratedSig _ _ => true
  | .updateSig _ _ => false

/-- Is a signal the update signal? -/
def isUpdateSig : RepSignal → Bool
  | .hydratedSig _ _ => false
  | .updateSig _ _ => true

/-- How many signals in a list satisfy a predicate. -/
def countSignals (p : RepSignal → Bool) (l : List RepSignal) : Nat :=
  (l.filter p).length

/-- The device cache rendered as the JSON object a JavaScript caller
receives. -/
def deviceCacheToJson (cache : DeviceCache) : Json :=
  .obj (cache.map fun e => (e.1, Json.obj e.2))

/-- The event object emitted by `_emitHydratedEvent` and
`_emitUpdateEvent`: `devices` and `structures`, deep copies of both
caches. -/
def hydratedEventPayload (s : RepState) : Json :=
  .obj [("devices", deviceCacheToJson s.localDeviceCache),
        ("structures", .obj s.localStructureCache)]

/-- The immediate synchronous invocation performed by
`addHydratedListener` when the instance is already hydrated: the
source calls `callbackFn(this.localDeviceCache)` — the internal device
cache object itself, with no `cloneDeep` and without the structure
cache, unlike the two-field snapshot used by the emit paths. -/
def addHydratedListenerImmediatePayloads (s : RepState) : List Json :=
  if s.hydrated = true then [deviceCacheToJson s.localDeviceCache] else []

/-- lodash `find(values(map), pattern)` where the pattern constrains
one field: does the record (an object) hold `value` at `field`?
Comparison is lodash `isEqual`, modelled by `jsonEq`. -/
def recordFieldEq (record : Json) (field : String) (value : Json) : Bool :=
  match record with
  | .obj kvs =>
    match alistGet kvs field with
    | some v => jsonEq v value
    | none => false
  | _ => false

/-- First record in a bucket (in insertion order, as lodash `values`
yields them) whose `field` equals `value`. -/
def findByField : DeviceBucket → String → Json → Option Json
  | [], _, _ => none
  | (_, record) :: rest, field, value =>
    if recordFieldEq record field value then some record
    else findByField rest field value

/-- `getDeviceById` (`NestRepresentationManager`).  The lodash
`forEach` callback in the source ends with an unconditional
`return false;`, and returning `false` from a lodash iteratee exits
the iteration — so only the FIRST device-type bucket is ever scanned,
whatever it contains.  Within that bucket the record is found by
`find(values(bucket), device_id pattern)` and returned as a
`cloneDeep` copy (the identity here). -/
def getDeviceById (cache : DeviceCache) (stringId : String) : Option Json :=
  match cache with
  | [] => none
  | (_, bucket) :: _ => findByField bucket "device_id" (.str stringId)

/-- The three return shapes of `getDeviceByName`: null, a single
record, or an array of records. -/
inductive NameQueryResult where
  | nullResult
  | single (record : Json)
  | multiple (records : List Json)
deriving Repr

/-- `getDeviceByName` (`NestRepresentationManager`): every bucket is
scanned, but `find` yields at most the first name match per bucket;
the collected per-bucket matches are returned as null / the one
record / the array, by count. -/
def getDeviceByName (cache : DeviceCache) (stringName : String) : NameQueryResult :=
  let results := cache.foldl
    (fun acc e =>
      match findByField e.2 "name" (.str stringName) with
      | some record => acc ++ [record]
      | none => acc)
    []
  match results with
  | [] => .nullResult
  | [r] => .single r
  | rs => .multiple rs

/-- A cache that previously held one thermostat entry. -/
def c1PriorCache : DeviceCache :=
  [("thermostats",
    [("A", .obj [("device_id", .str "A"), ("name", .str "Hallway"),
                 ("_deviceType", .str "thermostats")])])]

/-- A put container whose payload carries an explicitly empty
thermostats bucket (devices container non-empty, bucket empty). -/
def c1EmptyBucketUpdate : Json :=
  .obj [("event", .str "put"),
        ("body", .obj [("data", .obj [("devices", .obj [("thermostats", .obj [])])])])]

/-- A put container carrying one thermostat and one camera. -/
def c1TwoTypesUpdate : Json :=
  .obj [("event", .str "put"),
        ("body", .obj [("data", .obj [("devices",
          .obj [("thermostats", .obj [("A", .obj [("device_id", .str "A")])]),
                ("cameras", .obj [("C", .obj [("device_id", .str "C")])])])])])]

/-- A hydrated representation-manager state with an empty device cache
and one structure. -/
def c4State : RepState :=
  { localDeviceCache := [],
    localStructureCache := [("s1", .obj [("name", .str "Home")])],
    hydrated := true }

/-- A cache with two buckets whose only `cam-1` record lives in the
second bucket. -/
def c8Cache : DeviceCache :=
  [("thermostats", [("t1", .obj [("device_id", .str "t1"), ("name", .str "Hall")])]),
   ("cameras", [("cam-1", .obj [("device_id", .str "cam-1"), ("name", .str "Porch")])])]

/-- First of two same-bucket devices sharing the name Den. -/
def c9rec1 : Json := .obj [("device_id", .str "a"), ("name", .str "Den")]

/-- Second of two same-bucket devices sharing the name Den. -/
def c9rec2 : Json := .obj [("device_id", .str "b"), ("name", .str "Den")]

/-- A cache with one bucket containing two devices named Den. -/
def c9Cache : DeviceCache := [("thermostats", [("a", c9rec1), ("b", c9rec2)])]

/-- A record named Den living in a second bucket. -/
def c9rec3 : Json := .obj [("device_id", .str "c"), ("name", .str "Den")]

/-- A cache with matches for Den in two different buckets. -/
def c9MultiCache : DeviceCache :=
  [("thermostats", [("a", c9rec1)]), ("cameras", [("c", c9rec3)])]

/-- A put container with a body that has neither a `data.devices` nor
a `data.structures` path. -/
def c10BareUpdate : Json :=
  .obj [("event", .str "put"), ("body", .obj [("data", .obj [("path", .str "/")])])]

example : _balanceDeviceCacheAgainstUpstream c1PriorCache c1EmptyBucketUpdate =
    [("thermostats", [])] := by rfl
example : _balanceDeviceCacheAgainstUpstream [] c1TwoTypesUpdate =
    [("thermostats", [("A", .obj [("device_id", .str "A"), ("_deviceType", .str "thermostats")])]),
     ("cameras", [("C", .obj [("device_id", .str "C"), ("_deviceType", .str "cameras")])])] := by rfl
example : getDeviceById c8Cache "cam-1" = none := by rfl
example : getDeviceById c8Cache "t1" =
    some (.obj [("device_id", .str "t1"), ("name", .str "Hall")]) := by rfl
example : getDeviceByName c9Cache "Den" = .single c9rec1 := by rfl
example : getDeviceByName c9MultiCache "Den" = .multiple [c9rec1, c9rec3] := by rfl
example : getDeviceByName c9Cache "Nowhere" = .nullResult := by rfl
example :
    (handleNetworkManagerStreamUpdate RepState.initial c10BareUpdate).2 =
      [.hydratedSig [] []] := by rfl
example :
    (handleNetworkManagerStreamUpdate c4State c10BareUpdate).2 =
      [.updateSig [] [("s1", .obj [("name", .str "Home")])]] := by rfl
example :
    _putRequestCallback ⟨some "tok", some "https://h.example"⟩ true none "" =
      (⟨some "tok", some "https://h.example"⟩,
        .crash "TypeError: cannot read statusCode of undefined") := by rfl

theorem alistHas_alistSet {α : Type} (l : List (String × α)) (k : String) (v : α) (j : String) :
    alistHas (alistSet l k v) j = (alistHas l j || decide (k = j)) := by
  induction l with
  | nil => simp [alistSet, alistHas, Bool.or_comm]
  | cons e rest ih =>
    obtain ⟨a, b⟩ := e
    by_cases hak : a = k
    · subst hak
      by_cases haj : a = j <;> simp [alistSet, alistHas, haj]
    · simp only [alistSet, if_neg hak, alistHas, ih, Bool.or_assoc]

theorem alistHas_foldl_alistSet {α : Type}
    (f : List (String × α) → String × Json → α) :
    ∀ (ups : List (String × Json)) (acc : List (String × α)) (j : String),
      alistHas (ups.foldl (fun a e => alistSet a e.1 (f a e)) acc) j =
        (alistHas acc j || alistHas ups j) := by
  intro ups
  induction ups with
  | nil => simp [alistHas]
  | cons e es ih =>
    intro acc j
    simp only [List.foldl_cons, ih, alistHas, alistHas_alistSet, Bool.or_assoc]

theorem alistHas_filter_of_not {α : Type} (ups : List (String × Json))
    (cache : List (String × α)) (j : String) (h : alistHas ups j = false) :
    alistHas (cache.filter fun e => alistHas ups e.1) j = false := by
  induction cache with
  | nil => simp [alistHas]
  | cons e rest ih =>
    obtain ⟨a, b⟩ := e
    by_cases ha : alistHas ups a = true
    · have haj : ¬ a = j := fun hh => by rw [hh, h] at ha; cases ha
      simp [List.filter_cons, ha, alistHas, haj, ih]
    · simp [List.filter_cons, ha, ih]
example : jsTrim " put" = "put" := by decide
example : containsSubList "event: ".toList "event: put".toList = true := by decide
example : jsonEq (.arr [.num 1 0, .str "a"]) (.arr [.num 1 0, .str "a"]) = true := by decide
example : jsonEq (.obj [("a", .null)]) (.obj [("b", .null)]) = false := by rfl
example : parseStringIntoJsObject "-12" = some (.num (-12) 0) := by rfl
example : parseStringIntoJsObject "-" = none := by rfl
example : parseStringIntoJsObject "-1" = some (.num (-1) 0) := by rfl
example : parseStringIntoJsObject "" = none := by rfl
example : parseStringIntoJsObject "[1," = none := by rfl
example : parseStringIntoJsObject " \x7b\"a\": [1, true, null, \"x\"]\x7d " =
    some (.obj [("a", .arr [.num 1 0, .bool true, .null, .str "x"])]) := by rfl
example : parseStringIntoJsObject "1.5e2" = some (.num 15 1) := by rfl
example : parseStringIntoJsObject "01" = none := by rfl
example : parseStringIntoJsObject "\x7b\"devices\"" = none := by rfl
example : jsonParse "false" = some (.bool false) := by rfl
example : parseStringIntoJsObject "false" = none := by rfl
example : jsonParse "true" = some (.bool true) := by rfl
example : parseStringIntoJsObject "true" = some (.bool true) := by rfl
example : traceEmissions [] ["event: put\ndata: fal", "se"] = [[], []] := by rfl
example : extractStreamUpdateEventType (splitStringByNewlines "event: put\ndata: -") =
    some "put" := by rfl
example : extractAndParseStreamUpdateEventBody (splitStringByNewlines "event: put\ndata: -") =
    some ("-", none) := by rfl
example : traceEmissions [] ["event: put\ndata: -", "1", "2"] =
    [[], [⟨"put", some (.num (-1) 0)⟩], [⟨"put", some (.num 2 0)⟩]] := by rfl
example : _attemptToParseUpdate ["[99"] "event: put\ndata: [1," =
    .crash ["[99"]
      "TypeError: this._warnOfPotentialDataLossInOverwritingQueue is not a function" := by rfl

/-- C1, counterexample: reconciling the snapshot with devices
containing an explicitly empty thermostats bucket into a cache that
previously held a thermostat does NOT remove the thermostats bucket —
the bucket survives as an empty object, so a device-type key can exist
with zero devices of that type upstream, against the claimed
if-and-only-if invariant and against the claimed removal. -/
theorem c1_empty_bucket_not_removed :
    _balanceDeviceCacheAgainstUpstream c1PriorCache c1EmptyBucketUpdate =
      [("thermostats", [])] ∧
    alistHas (_balanceDeviceCacheAgainstUpstream c1PriorCache c1EmptyBucketUpdate)
      "thermostats" = true ∧
    getBodyDataField c1EmptyBucketUpdate "devices" =
      some (.obj [("thermostats", .obj [])]) :=
  ⟨rfl, rfl, rfl⟩

/-- C1, amended: for every reconciliation of a put payload whose
devices container is non-empty, the resulting device cache contains a
device-type key if and only if that KEY is present in the upstream
devices container — an upstream bucket that is present but empty is
kept locally as an empty bucket, and a bucket is removed exactly when
its key is absent upstream. -/
theorem c1_deviceTypeKey_iff_upstream_key (cache : DeviceCache) (updateObject devs : Json)
    (h1 : getBodyDataField updateObject "devices" = some devs)
    (h2 : devs.isEmptyVal = false) (j : String) :
    alistHas (_balanceDeviceCacheAgainstUpstream cache updateObject) j =
      alistHas devs.objEntries j := by
  have hres : _balanceDeviceCacheAgainstUpstream cache updateObject =
      devs.objEntries.foldl (fun acc entry => alistSet acc entry.1 (balanceBucket acc entry))
        (cache.filter fun e => alistHas devs.objEntries e.1) := by
    unfold _balanceDeviceCacheAgainstUpstream
    rw [h1]
    simp [h2]
  rw [hres, alistHas_foldl_alistSet balanceBucket devs.objEntries
    (cache.filter fun e => alistHas devs.objEntries e.1) j]
  cases hj : alistHas devs.objEntries j with
  | true => simp
  | false => simp [alistHas_filter_of_not _ _ _ hj]

/-- Witness for the amended C1 theorem at the concrete empty-bucket
snapshot: the hypotheses hold and the key set of the balanced cache
matches the upstream key set. -/
theorem c1_deviceTypeKey_iff_upstream_key_witness :
    getBodyDataField c1EmptyBucketUpdate "devices" =
      some (.obj [("thermostats", .obj [])]) ∧
    (Json.obj [("thermostats", .obj [])]).isEmptyVal = false ∧
    alistHas (_balanceDeviceCacheAgainstUpstream c1PriorCache c1EmptyBucketUpdate)
        "thermostats" =
      alistHas (Json.obj [("thermostats", .obj [])]).objEntries "thermostats" :=
  ⟨rfl, rfl,
    c1_deviceTypeKey_iff_upstream_key c1PriorCache c1EmptyBucketUpdate
      (.obj [("thermostats", .obj [])]) rfl rfl "thermostats"⟩

theorem handle_hydrated_after (s : RepState) (u : Json) :
    (handleNetworkManagerStreamUpdate s u).1.hydrated = true := by
  by_cases h : s.hydrated = false <;> simp [handleNetworkManagerStreamUpdate, h]

theorem handle_emission_counts (s : RepState) (u : Json) :
    countSignals isHydratedSig (handleNetworkManagerStreamUpdate s u).2 =
      (if s.hydrated = false then 1 else 0) ∧
    countSignals isUpdateSig (handleNetworkManagerStreamUpdate s u).2 =
      (if s.hydrated = false then 0 else 1) := by
  by_cases h : s.hydrated = false <;>
    simp [handleNetworkManagerStreamUpdate, h, countSignals, isHydratedSig, isUpdateSig]

theorem runUpdates_counts_of_hydrated :
    ∀ (us : List Json) (s : RepState), s.hydrated = true → ∀ i, i < us.length →
      countSignals isHydratedSig ((runUpdates s us).2.getD i []) = 0 ∧
      countSignals isUpdateSig ((runUpdates s us).2.getD i []) = 1 := by
  intro us
  induction us with
  | nil => intro s _ i hi; cases hi
  | cons u us ih =>
    intro s hs i hi
    cases i with
    | zero =>
      have hc := handle_emission_counts s u
      rw [hs] at hc
      simpa [runUpdates] using hc
    | succ j =>
      have hh := handle_hydrated_after s u
      have hrec := ih (handleNetworkManagerStreamUpdate s u).1 hh j
        (Nat.lt_of_succ_lt_succ hi)
      simpa [runUpdates] using hrec

/-- C3: over one engine lifetime started unhydrated, the first call to
the reconcile entry point emits exactly one hydrated signal and zero
update signals, and every later call emits exactly one update signal
and zero hydrated signals. -/
theorem c3_first_call_hydrates_then_updates
    (dc : DeviceCache) (sc : StructureCache) (us : List Json) (i : Nat)
    (hi : i < us.length) :
    countSignals isHydratedSig
        ((runUpdates ⟨dc, sc, false⟩ us).2.getD i []) = (if i = 0 then 1 else 0) ∧
    countSignals isUpdateSig
        ((runUpdates ⟨dc, sc, false⟩ us).2.getD i []) = (if i = 0 then 0 else 1) := by
  cases us with
  | nil => cases hi
  | cons u us =>
    cases i with
    | zero =>
      have hc := handle_emission_counts ⟨dc, sc, false⟩ u
      simpa [runUpdates] using hc
    | succ j =>
      have hh := handle_hydrated_after ⟨dc, sc, false⟩ u
      have hrec := runUpdates_counts_of_hydrated us
        (handleNetworkManagerStreamUpdate ⟨dc, sc, false⟩ u).1 hh j
        (Nat.lt_of_succ_lt_succ hi)
      simpa [runUpdates] using hrec

/-- Witness for the C3 theorem: two successive reconcile calls on a
fresh engine; the second call (index one) emits zero hydrated signals
and one update signal. -/
theorem c3_first_call_hydrates_then_updates_witness :
    1 < ([Json.obj [], Json.obj []] : List Json).length ∧
    (countSignals isHydratedSig
        ((runUpdates ⟨[], [], false⟩ [Json.obj [], Json.obj []]).2.getD 1 []) =
          (if 1 = 0 then 1 else 0) ∧
      countSignals isUpdateSig
        ((runUpdates ⟨[], [], false⟩ [Json.obj [], Json.obj []]).2.getD 1 []) =
          (if 1 = 0 then 0 else 1)) :=
  ⟨by decide,
    c3_first_call_hydrates_then_updates [] [] [Json.obj [], Json.obj []] 1 (by decide)⟩

/-- C10: a put payload lacking both the `body.data.devices` and the
`body.data.structures` paths leaves both caches unchanged yet counts
as a successful reconciliation — the engine becomes hydrated, the
first such call emits the hydrated signal (with the caches as they
were, possibly empty) and later calls emit the update signal. -/
theorem c10_pathless_payload_still_reconciles (s : RepState) (u : Json)
    (hd : getBodyDataField u "devices" = none)
    (hs : getBodyDataField u "structures" = none) :
    (handleNetworkManagerStreamUpdate s u).1.localDeviceCache = s.localDeviceCache ∧
    (handleNetworkManagerStreamUpdate s u).1.localStructureCache = s.localStructureCache ∧
    (handleNetworkManagerStreamUpdate s u).1.hydrated = true ∧
    (handleNetworkManagerStreamUpdate s u).2 =
      [if s.hydrated = false then
          RepSignal.hydratedSig s.localDeviceCache s.localStructureCache
        else RepSignal.updateSig s.localDeviceCache s.localStructureCache] := by
  have hbd : _balanceDeviceCacheAgainstUpstream s.localDeviceCache u =
      s.localDeviceCache := by
    unfold _balanceDeviceCacheAgainstUpstream
    rw [hd]
  have hbs : _balanceStructureCacheAgainstUpstream s.localStructureCache u =
      s.localStructureCache := by
    unfold _balanceStructureCacheAgainstUpstream
    rw [hs]
  by_cases h : s.hydrated = false <;>
    simp [handleNetworkManagerStreamUpdate, hbd, hbs, h]

/-- Witness for the C10 theorem at a concrete pathless put container
fed to a fresh engine: caches stay empty and the hydrated signal is
emitted. -/
theorem c10_pathless_payload_still_reconciles_witness :
    getBodyDataField c10BareUpdate "devices" = none ∧
    getBodyDataField c10BareUpdate "structures" = none ∧
    ((handleNetworkManagerStreamUpdate RepState.initial c10BareUpdate).1.localDeviceCache =
        RepState.initial.localDeviceCache ∧
      (handleNetworkManagerStreamUpdate RepState.initial c10BareUpdate).1.localStructureCache =
        RepState.initial.localStructureCache ∧
      (handleNetworkManagerStreamUpdate RepState.initial c10BareUpdate).1.hydrated = true ∧
      (handleNetworkManagerStreamUpdate RepState.initial c10BareUpdate).2 =
        [if RepState.initial.hydrated = false then
            RepSignal.hydratedSig RepState.initial.localDeviceCache
              RepState.initial.localStructureCache
          else RepSignal.updateSig RepState.initial.localDeviceCache
              RepState.initial.localStructureCache]) :=
  ⟨rfl, rfl, c10_pathless_payload_still_reconciles RepState.initial c10BareUpdate rfl rfl⟩

/-- C4: the callback registered through `addHydratedListener` after
hydration has already occurred is invoked immediately — but with the
engine internal `localDeviceCache` object itself (no `cloneDeep`, and
without the structure cache), not with the documented two-field
`devices`/`structures` snapshot that the emit paths deliver; at the
concrete hydrated state the immediately delivered value differs from
the snapshot object. -/
theorem c4_late_hydrated_callback_gets_raw_device_cache :
    addHydratedListenerImmediatePayloads c4State = [Json.obj []] ∧
    hydratedEventPayload c4State =
      .obj [("devices", .obj []),
            ("structures", .obj [("s1", .obj [("name", .str "Home")])])] ∧
    Json.obj [] ≠ hydratedEventPayload c4State := by
  refine ⟨rfl, rfl, ?_⟩
  intro h
  simp [hydratedEventPayload, c4State, deviceCacheToJson] at h

/-- C5: a put event whose body fails to parse while the chunk buffer
is already non-empty does not log a warning and replace the buffer —
the branch calls `this._warnOfPotentialDataLossInOverwritingQueue()`,
a method defined nowhere in the repository, so it throws `TypeError`
with the buffer untouched and no event emitted. -/
theorem c5_conflict_branch_throws :
    _attemptToParseUpdate ["[99"] "event: put\ndata: [1," =
      .crash ["[99"]
        "TypeError: this._warnOfPotentialDataLossInOverwritingQueue is not a function" ∧
    parseStringIntoJsObject "[1," = none ∧
    containsEventMarker "event: put\ndata: [1," = true :=
  ⟨rfl, rfl, rfl⟩

/-- C6: a PUT mutation that fails at the transport level (truthy
error, no HTTP response object) makes the `_putRequest` callback throw
`TypeError` on its very first expression `response.statusCode`,
whether or not a redirect is cached — it neither clears the redirect
and retries nor rejects with the transport failure. -/
theorem c6_transport_failure_throws :
    _putRequestCallback ⟨some "tok", some "https://firebase-apiserver02.example"⟩
        true none "" =
      (⟨some "tok", some "https://firebase-apiserver02.example"⟩,
        .crash "TypeError: cannot read statusCode of undefined") ∧
    _putRequestCallback ⟨some "tok", none⟩ true none "" =
      (⟨some "tok", none⟩, .crash "TypeError: cannot read statusCode of undefined") :=
  ⟨rfl, rfl⟩

/-- C7, counterexample: `removeToken` does not invalidate the cached
redirect — after the call the cached redirect target is still present,
so subsequent requests would still prefer it over the default API
root. -/
theorem c7_redirect_survives_removeToken :
    (removeToken ⟨some "tok", some "https://firebase-apiserver02.example"⟩).cachedRedirectUrl =
      some "https://firebase-apiserver02.example" ∧
    (removeToken ⟨some "tok", some "https://firebase-apiserver02.example"⟩).cachedRedirectUrl ≠
      none := by
  refine ⟨rfl, ?_⟩
  intro h
  simp [removeToken] at h

/-- C7, amended: `removeToken` is idempotent, returns the manager
instance, and sets the stored access token back to the absent state —
but it leaves the cached redirect target untouched. -/
theorem c7_removeToken_idempotent_token_only (s : NMState) :
    removeToken (removeToken s) = removeToken s ∧
    (removeToken s).accessToken = none ∧
    (removeToken s).cachedRedirectUrl = s.cachedRedirectUrl :=
  ⟨rfl, rfl, rfl⟩

/-- C8: `getDeviceById` does not scan all device-type buckets: the
lodash `forEach` callback unconditionally returns `false`, exiting
after the first bucket, so an id whose record lives in the second
bucket yields null even though the record is present there. -/
theorem c8_second_bucket_record_not_found :
    getDeviceById c8Cache "cam-1" = none ∧
    (c8Cache.map fun e => findByField e.2 "device_id" (.str "cam-1")).getD 1 none =
      some (.obj [("device_id", .str "cam-1"), ("name", .str "Porch")]) ∧
    getDeviceById c8Cache "t1" =
      some (.obj [("device_id", .str "t1"), ("name", .str "Hall")]) :=
  ⟨rfl, rfl, rfl⟩

theorem findByField_matches (bucket : DeviceBucket) (field : String) (value r : Json)
    (h : findByField bucket field value = some r) :
    recordFieldEq r field value = true := by
  induction bucket with
  | nil => cases h
  | cons e rest ih =>
    obtain ⟨k, record⟩ := e
    simp only [findByField] at h
    by_cases hm : recordFieldEq record field value = true
    · rw [if_pos hm] at h
      injection h with h1
      subst h1
      exact hm
    · rw [if_neg hm] at h
      exact ih h

theorem foldl_collect (f : String × DeviceBucket → Option Json) :
    ∀ (cache : List (String × DeviceBucket)) (acc : List Json),
      cache.foldl
        (fun acc2 e =>
          match f e with
          | some record => acc2 ++ [record]
          | none => acc2)
        acc = acc ++ cache.filterMap f := by
  intro cache
  induction cache with
  | nil => intro acc; simp
  | cons e rest ih =>
    intro acc
    cases hf : f e with
    | none => simp [List.foldl_cons, List.filterMap_cons, hf, ih]
    | some r => simp [List.foldl_cons, List.filterMap_cons, hf, ih]

theorem length_filterMap_eq_filter (f : String × DeviceBucket → Option Json) :
    ∀ cache : List (String × DeviceBucket),
      (cache.filterMap f).length = (cache.filter fun e => (f e).isSome).length := by
  intro cache
  induction cache with
  | nil => rfl
  | cons e rest ih =>
    cases hf : f e with
    | none => simp [List.filterMap_cons, List.filter_cons, hf, ih]
    | some r => simp [List.filterMap_cons, List.filter_cons, hf, ih]

/-- C9, counterexample: two distinct devices in the SAME bucket share
the name Den, yet `getDeviceByName` returns the single first record
instead of a sequence containing all matching records — within one
bucket lodash `find` yields only the first match. -/
theorem c9_same_bucket_duplicates_collapse :
    getDeviceByName c9Cache "Den" = .single c9rec1 ∧
    recordFieldEq c9rec1 "name" (.str "Den") = true ∧
    recordFieldEq c9rec2 "name" (.str "Den") = true ∧
    c9rec1 ≠ c9rec2 := by
  refine ⟨rfl, rfl, rfl, ?_⟩
  intro h
  simp [c9rec1, c9rec2] at h

/-- C9, amended: `getDeviceByName` collects AT MOST ONE record per
device-type bucket — the first match, in bucket order.  Every
collected record carries the searched name; the result is null when no
bucket matches, the single collected record when exactly one bucket
matches, and the sequence of per-bucket first matches when two or more
buckets match; same-bucket duplicates are not all returned. -/
theorem c9_getDeviceByName_per_bucket (cache : DeviceCache) (stringName : String) :
    (∀ r ∈ cache.filterMap fun e => findByField e.2 "name" (.str stringName),
        recordFieldEq r "name" (.str stringName) = true) ∧
    ((cache.filterMap fun e => findByField e.2 "name" (.str stringName)) = [] →
        getDeviceByName cache stringName = .nullResult) ∧
    (∀ r, (cache.filterMap fun e => findByField e.2 "name" (.str stringName)) = [r] →
        getDeviceByName cache stringName = .single r) ∧
    (2 ≤ (cache.filterMap fun e => findByField e.2 "name" (.str stringName)).length →
        getDeviceByName cache stringName =
          .multiple (cache.filterMap fun e => findByField e.2 "name" (.str stringName))) ∧
    (cache.filterMap fun e => findByField e.2 "name" (.str stringName)).length =
      (cache.filter fun e => (findByField e.2 "name" (.str stringName)).isSome).length := by
  have hfold : getDeviceByName cache stringName =
      (match cache.filterMap fun e => findByField e.2 "name" (.str stringName) with
        | [] => NameQueryResult.nullResult
        | [r] => NameQueryResult.single r
        | rs => NameQueryResult.multiple rs) := by
    unfold getDeviceByName
    rw [foldl_collect (fun e => findByField e.2 "name" (.str stringName)) cache [],
      List.nil_append]
  refine ⟨?_, ?_, ?_, ?_, ?_⟩
  · intro r hr
    rcases List.mem_filterMap.mp hr with ⟨e, _, hf⟩
    exact findByField_matches e.2 "name" (.str stringName) r hf
  · intro h0
    rw [hfold, h0]
  · intro r h1
    rw [hfold, h1]
  · intro h2
    cases hl : cache.filterMap fun e => findByField e.2 "name" (.str stringName) with
    | nil => rw [hl] at h2; simp at h2
    | cons a t =>
      cases t with
      | nil => rw [hl] at h2; simp at h2
      | cons b t2 => rw [hfold, hl]
  · exact length_filterMap_eq_filter (fun e => findByField e.2 "name" (.str stringName)) cache

/-- Witness for the amended C9 theorem: with Den matching in two
different buckets the result is the sequence of the two per-bucket
first matches. -/
theorem c9_getDeviceByName_per_bucket_witness :
    2 ≤ (c9MultiCache.filterMap fun e => findByField e.2 "name" (.str "Den")).length ∧
    getDeviceByName c9MultiCache "Den" =
      .multiple (c9MultiCache.filterMap fun e => findByField e.2 "name" (.str "Den")) :=
  ⟨by decide, (c9_getDeviceByName_per_bucket c9MultiCache "Den").2.2.2.1 (by decide)⟩

theorem contRun :
    ∀ (mid : List String) (buf : List String) (last : String) (v : Json),
      (∀ g ∈ mid, containsEventMarker g = false) →
      containsEventMarker last = false →
      (∀ k, k < mid.length →
        parseStringIntoJsObject (strJoin (buf ++ mid.take (k + 1))) = none) →
      parseStringIntoJsObject (strJoin (buf ++ (mid ++ [last]))) = some v →
      traceEmissions buf (mid ++ [last]) =
        List.replicate mid.length [] ++ [[⟨"put", some v⟩]] := by
  intro mid
  induction mid with
  | nil =>
    intro buf last v _ hlast _ hfin
    simp only [List.nil_append] at hfin
    simp [traceEmissions, processFragments, _determineStreamUpdateType,
      _attemptToParseUpdate, _determineIfChunkedMessagesHaveCompleted, hlast, hfin,
      emittedOf]
  | cons g mid ih =>
    intro buf last v hmarks hlast hmids hfin
    have hg : containsEventMarker g = false := hmarks g (List.mem_cons_self g mid)
    have h0 : parseStringIntoJsObject (strJoin (buf ++ [g])) = none := by
      have hx := hmids 0 (Nat.succ_pos mid.length)
      simpa using hx
    have hrest := ih (buf ++ [g]) last v
      (fun g2 hg2 => hmarks g2 (List.mem_cons_of_mem g hg2))
      hlast
      (fun k hk => by
        have hx := hmids (k + 1) (Nat.succ_lt_succ hk)
        simpa [List.append_assoc] using hx)
      (by simpa [List.append_assoc] using hfin)
    have hstep : _determineStreamUpdateType buf g = .ok (buf ++ [g]) [] := by
      simp [_determineStreamUpdateType, _attemptToParseUpdate,
        _determineIfChunkedMessagesHaveCompleted, hg, h0]
    calc traceEmissions buf ((g :: mid) ++ [last])
        = [] :: traceEmissions (buf ++ [g]) (mid ++ [last]) := by
          simp [traceEmissions, processFragments, hstep, emittedOf]
      _ = [] :: (List.replicate mid.length [] ++ [[⟨"put", some v⟩]]) := by rw [hrest]
      _ = List.replicate (g :: mid).length [] ++ [[⟨"put", some v⟩]] := by
          simp [List.replicate_succ]

/-- C2 (amended): splitting a valid JSON put body into fragments —
first fragment carrying the event header and a data prefix that does
not parse alone, continuations free of the event marker — and feeding
them in order to the inbound chunk handler from an empty buffer emits
nothing for the first fragments and exactly one put event carrying the
JSON value of the full reconstructed string on the last, PROVIDED no
intermediate reconstruction already parses as JSON; without that
proviso the handler emits a put event as soon as the buffered string
first becomes valid JSON (see the counterexample).  The success
hypothesis is stated over `parseStringIntoJsObject`, so it also
excludes a body that is the JSON literal false: that value collides
with the transport's parse-failure sentinel (`=== false`), and such a
series is never emitted, staying buffered forever. -/
theorem c2_chunked_put_reassembly (f1 r1 : String) (mid : List String) (last : String)
    (v : Json)
    (h1 : containsEventMarker f1 = true)
    (h2 : extractStreamUpdateEventType (splitStringByNewlines f1) = some "put")
    (h3 : extractAndParseStreamUpdateEventBody (splitStringByNewlines f1) = some (r1, none))
    (h4 : ∀ g ∈ mid, containsEventMarker g = false)
    (h5 : containsEventMarker last = false)
    (h6 : ∀ k, k < mid.length →
      parseStringIntoJsObject (strJoin (r1 :: mid.take (k + 1))) = none)
    (h7 : parseStringIntoJsObject (strJoin (r1 :: (mid ++ [last]))) = some v) :
    traceEmissions [] (f1 :: (mid ++ [last])) =
      List.replicate (mid.length + 1) [] ++ [[⟨"put", some v⟩]] := by
  have hstep : _determineStreamUpdateType [] f1 = .ok [r1] [] := by
    simp [_determineStreamUpdateType, _attemptToParseUpdate, h1, h2, h3]
  have hrest := contRun mid [r1] last v h4 h5
    (fun k hk => by simpa using h6 k hk)
    (by simpa using h7)
  calc traceEmissions [] (f1 :: (mid ++ [last]))
      = [] :: traceEmissions [r1] (mid ++ [last]) := by
        simp [traceEmissions, processFragments, hstep, emittedOf]
    _ = [] :: (List.replicate mid.length [] ++ [[⟨"put", some v⟩]]) := by rw [hrest]
    _ = List.replicate (mid.length + 1) [] ++ [[⟨"put", some v⟩]] := by
        simp [List.replicate_succ]

/-- C2, counterexample: the put body -12 split as the data prefix -
followed by continuations 1 and 2 satisfies every stated condition
(first fragment fails to parse alone, continuations carry no event
marker, the full reconstruction is valid JSON), yet the handler emits
a put event with body -1 already on the SECOND of three fragments and
a second put event with body 2 on the last — not zero events for the
first two fragments and one event with body -12. -/
theorem c2_early_emission_counterexample :
    parseStringIntoJsObject "-" = none ∧
    containsEventMarker "1" = false ∧
    containsEventMarker "2" = false ∧
    parseStringIntoJsObject (strJoin ["-", "1", "2"]) = some (.num (-12) 0) ∧
    traceEmissions [] ["event: put\ndata: -", "1", "2"] =
      [[], [⟨"put", some (.num (-1) 0)⟩], [⟨"put", some (.num 2 0)⟩]] ∧
    (traceEmissions [] ["event: put\ndata: -", "1", "2"]).getD 1 [] ≠ [] := by
  refine ⟨rfl, rfl, rfl, rfl, rfl, ?_⟩
  intro h
  have h2 : ([(⟨"put", some (Json.num (-1) 0)⟩ : EventContainer)] : List EventContainer) =
      [] := by
    calc ([(⟨"put", some (Json.num (-1) 0)⟩ : EventContainer)] : List EventContainer)
        = (traceEmissions [] ["event: put\ndata: -", "1", "2"]).getD 1 [] := rfl
      _ = [] := h
  exact List.noConfusion h2

/-- Witness for the amended C2 theorem: the array body built from
three fragments whose intermediate reconstructions are not valid JSON
yields no emission on the first two fragments and one put event with
the full parsed array on the third. -/
theorem c2_chunked_put_reassembly_witness :
    traceEmissions [] ["event: put\ndata: [1,", "2,", "3]"] =
      List.replicate (["2,"].length + 1) [] ++
        [[⟨"put", some (.arr [.num 1 0, .num 2 0, .num 3 0])⟩]] :=
  c2_chunked_put_reassembly "event: put\ndata: [1," "[1," ["2,"] "3]"
    (.arr [.num 1 0, .num 2 0, .num 3 0])
    rfl rfl rfl
    (by intro g hg
        simp only [List.mem_singleton] at hg
        subst hg
        rfl)
    rfl
    (by intro k hk
        have hk0 : k = 0 := Nat.lt_one_iff.mp hk
        subst hk0
        rfl)
    rfl
